import Mathlib

/-!
A shallow embedding of the `s3fs_download` core (`s3fs_download/core.py`):
the `S3Downloader` configuration, the `DownloadedS3File` handle, its
streamed-download logic and its read-family operations.

Bytes are modelled as `List Nat`; file objects as explicit records; the
process state (`World`) carries a flat on-disk file map, the remote object
store, a heap of open file objects (file fields of a handle hold heap
references, so aliasing of `_file` and `_tmp` is represented faithfully),
and a counter of remote `get_object` calls.  Python exceptions are
modelled with `Except`; since exceptions do not roll back mutations, every
method returns the mutated `World` and handle alongside the `Except`.
-/

/-- Python byte strings are lists of byte values. -/
abbrev Bytes := List Nat

/-- Python exceptions raised by the embedded code. -/
inductive PyError where
  | ioError (msg : String)
  | notImplementedError (msg : String)
  | nameError (msg : String)
  | attributeError (msg : String)
  | valueError (msg : String)
deriving DecidableEq, Repr

/-- Constant `DEFAULT_BUFFER_SIZE = 2**20 * 256` (core.py line 8). -/
def DEFAULT_BUFFER_SIZE : Nat := 2 ^ 20 * 256

/-- A local file object: `open(..)` or `tempfile.TemporaryFile(..)` result.
`name = none` for an anonymous temporary file. -/
structure LocalFile where
  name : Option String
  content : Bytes
  pos : Nat
  writable : Bool
  closed : Bool
deriving DecidableEq, Repr

/-- The `S3Downloader` configuration (core.py lines 10-23); the underlying
`S3FileSystem` client is modelled as the remote map inside `World`. -/
structure S3Downloader where
  dir : String
  lazy : Bool
  use_cache : Bool
deriving DecidableEq, Repr

/-- Field `self._file` of a `DownloadedS3File`: `None`, a file object (by heap
reference), or - after the `readlines` slip at core.py line 92 - the bound
method object `self._get_file` itself. -/
inductive FileSlot where
  | pyNone
  | ref (r : Nat)
  | boundMethod
deriving DecidableEq, Repr

/-- The mutable state of a `DownloadedS3File` handle (core.py lines 28-58).
`s3_additional_kwargs` is omitted: it is never read by the core logic. -/
structure DownloadedS3File where
  s3 : S3Downloader
  mode : String
  path : String
  bucket : String
  key : String
  buf_size : Nat
  closed : Bool
  file : FileSlot
  tmp : Option Nat
  downloaded : Bool
deriving DecidableEq, Repr

/-- Process state: flat on-disk file map, the remote store keyed by
(bucket, key), the heap of file objects, and a remote-fetch counter. -/
structure World where
  fs : List (String × Bytes)
  remote : List (String × String × Bytes)
  heap : List LocalFile
  fetches : Nat
deriving DecidableEq, Repr

/-- Look a path up in the on-disk file map. -/
def lookupFS : List (String × Bytes) → String → Option Bytes
  | [], _ => none
  | (p, c) :: rest, q => if p = q then some c else lookupFS rest q

/-- Store a file at a path in the on-disk file map. -/
def setFS : List (String × Bytes) → String → Bytes → List (String × Bytes)
  | [], p, c => [(p, c)]
  | (q, d) :: rest, p, c => if q = p then (q, c) :: rest else (q, d) :: setFS rest p c

/-- Look an object up in the remote store (`get_object(Bucket, Key)`). -/
def lookupRemote : List (String × String × Bytes) → String → String → Option Bytes
  | [], _, _ => none
  | (b, k, c) :: rest, bucket, key =>
      if b = bucket ∧ k = key then some c else lookupRemote rest bucket key

/-- Dereference a file object on the heap. -/
def World.getFile (w : World) (r : Nat) : Option LocalFile := w.heap[r]?

/-- Overwrite a file object on the heap. -/
def World.setFile (w : World) (r : Nat) (f : LocalFile) : World :=
  { w with heap := w.heap.set r f }

/-- Allocate a fresh file object, returning its reference. -/
def World.alloc (w : World) (f : LocalFile) : Nat × World :=
  (w.heap.length, { w with heap := w.heap ++ [f] })

/-- A fresh process state: given on-disk and remote contents, no open file
objects and no remote fetches yet. -/
def World.init (fs : List (String × Bytes)) (remote : List (String × String × Bytes)) : World :=
  { fs := fs, remote := remote, heap := [], fetches := 0 }

/-- Modelled from the spec: the path parser collaborator
`splitPath(path) -> (bucket, key)` (`s3fs.core.split_path`, not part of
this repository) - the caller-supplied path is split at the first slash
into the bucket and the key. -/
def splitChars : List Char → List Char × List Char
  | [] => ([], [])
  | c :: cs =>
      if c = '/' then ([], cs)
      else
        let (b, k) := splitChars cs
        (c :: b, k)

/-- Modelled from the spec: `split_path path = (bucket, key)`. -/
def split_path (path : String) : String × String :=
  let (b, k) := splitChars path.toList
  (String.mk b, String.mk k)

/-- Does the string start with the path separator? (`b.startswith(sep)`
specialised to the one-character posix separator). -/
def startsWithSep (s : String) : Bool :=
  match s.toList with
  | [] => false
  | c :: _ => c = '/'

/-- Does the string end with the path separator? -/
def endsWithSep (s : String) : Bool :=
  match s.toList.getLast? with
  | none => false
  | some c => c = '/'

/-- The Python standard library `os.path.join` (posix semantics) on two
components, as used at core.py lines 123 and 139-140. -/
def os_path_join (a b : String) : String :=
  if startsWithSep b then b
  else if a = "" then b
  else if endsWithSep a then a ++ b
  else a ++ "/" ++ b

/-- Predicate `os.path.isfile` against the modelled file map. -/
def os_path_isfile (w : World) (p : String) : Bool := (lookupFS w.fs p).isSome

/-- Call `open(p, mode="wb+")`: truncates any existing on-disk content and
returns a fresh writable file object positioned at 0. -/
def openWB (w : World) (p : String) : Nat × World :=
  let w1 : World := { w with fs := setFS w.fs p [] }
  World.alloc w1 { name := some p, content := [], pos := 0, writable := true, closed := false }

/-- Call `open(p, mode="rb")`: read-only file object over the current on-disk
bytes; fails if no file exists at `p`. -/
def openRB (w : World) (p : String) : (Except PyError Nat) × World :=
  match lookupFS w.fs p with
  | none => (.error (.ioError "No such file or directory"), w)
  | some c =>
      let (r, w1) := World.alloc w
        { name := some p, content := c, pos := 0, writable := false, closed := false }
      (.ok r, w1)

/-- Call `tempfile.TemporaryFile(mode="wb+")`: anonymous writable file. -/
def temporaryFile (w : World) : Nat × World :=
  World.alloc w { name := none, content := [], pos := 0, writable := true, closed := false }

/-- Call `f.write(data)`: overwrite at the current position and advance it. -/
def fwriteFile (f : LocalFile) (data : Bytes) : LocalFile :=
  { f with
    content := f.content.take f.pos ++ data ++ f.content.drop (f.pos + data.length)
    pos := f.pos + data.length }

/-- Call `f.read()` with no length: all bytes from the position to the end. -/
def freadAll (f : LocalFile) : Bytes × LocalFile :=
  (f.content.drop f.pos, { f with pos := f.content.length })

/-- Call `f.read(n)` for `n ≥ 0`: up to `n` bytes from the position. -/
def freadN (f : LocalFile) (n : Nat) : Bytes × LocalFile :=
  let data := (f.content.drop f.pos).take n
  (data, { f with pos := f.pos + data.length })

/-- The next line of a byte list: up to and including the first newline
byte (10), or the whole list when no newline remains. -/
def takeLine : Bytes → Bytes
  | [] => []
  | b :: bs => if b = 10 then [10] else b :: takeLine bs

theorem takeLine_length_pos : ∀ (l : Bytes), l ≠ [] → 0 < (takeLine l).length := by
  intro l hl
  cases l with
  | nil => exact absurd rfl hl
  | cons b bs =>
      by_cases hb : b = 10
      · simp [takeLine, hb]
      · simp [takeLine, hb]

/-- All lines of a byte list, each line carrying its trailing newline
(the last line possibly not newline-terminated). -/
def splitLines (l : Bytes) : List Bytes :=
  if h : l = [] then []
  else takeLine l :: splitLines (l.drop (takeLine l).length)
termination_by l.length
decreasing_by
  have hpos : 0 < (takeLine l).length := takeLine_length_pos l h
  have hlen : 0 < l.length := by
    cases l with
    | nil => exact absurd rfl h
    | cons b bs => simp
  simp only [List.length_drop]
  omega

/-- Call `f.readline()`. -/
def freadlineFile (f : LocalFile) : Bytes × LocalFile :=
  let line := takeLine (f.content.drop f.pos)
  (line, { f with pos := f.pos + line.length })

/-- Call `f.readlines()`. -/
def freadlinesFile (f : LocalFile) : List Bytes × LocalFile :=
  (splitLines (f.content.drop f.pos), { f with pos := f.content.length })

/-- The chunked-transfer loop of `_download` (core.py lines 131-134):
`data = obj.read(amt=buf_size); while data: tmp.write(data); data = ...`.
The remote byte stream is the suffix of the object content not yet
consumed; a read takes up to `bufSize` of it.  The loop mutates only the
single tmp file object, so it is threaded here directly. -/
def downloadLoop (bufSize : Nat) (f : LocalFile) (stream : Bytes) : LocalFile :=
  if h : stream.take bufSize = [] then f
  else downloadLoop bufSize (fwriteFile f (stream.take bufSize)) (stream.drop bufSize)
termination_by stream.length
decreasing_by
  have hs : stream ≠ [] := by
    intro hnil
    rw [hnil] at h
    simp at h
  have hb : bufSize ≠ 0 := by
    intro hz
    rw [hz] at h
    simp at h
  have hlen : 0 < stream.length := List.length_pos.mpr hs
  simp only [List.length_drop]
  omega

namespace DownloadedS3File

/-- Method `_get_tmp` (core.py lines 118-125).  Directory creation (`os.makedirs`)
is not modelled: the file map is flat, so idempotent creation of parents
is a no-op. -/
def get_tmp (w : World) (self : DownloadedS3File) : Nat × World :=
  if self.s3.dir ≠ "" then
    openWB w (os_path_join self.s3.dir self.key)
  else
    temporaryFile w

/-- Method `_download` (core.py lines 127-136): allocate the local store, call
`get_object` (counted as a fetch), stream chunks of up to `buf_size`
bytes into it; a missing remote object raises `ClientError`, translated
to the generic download `IOError`.  The on-disk copy of a named local
store is synchronised after the loop (single-threaded, so intermediate
states are unobservable). -/
def download (w : World) (self : DownloadedS3File) :
    (Except PyError Unit) × World × DownloadedS3File :=
  let (r, w1) := get_tmp w self
  let self1 := { self with tmp := some r }
  let w2 := { w1 with fetches := w1.fetches + 1 }
  match lookupRemote w2.remote self1.bucket self1.key with
  | none =>
      -- source message (apostrophe elided): Couldnt download file. ...
      (.error (.ioError "Could not download file. Verify that your S3 path is valid and that you have appropriate permissions."), w2, self1)
  | some content =>
      match w2.getFile r with
      | none => (.error (.ioError "invalid file reference"), w2, self1)
      | some f0 =>
          let f1 := downloadLoop self1.buf_size f0 content
          let w3 := w2.setFile r f1
          let w4 := match f1.name with
                    | some p => { w3 with fs := setFS w3.fs p f1.content }
                    | none => w3
          (.ok (), w4, self1)

/-- Method `_get_file` (core.py lines 138-147): cache-hit short-circuit when
`use_cache` holds, a file exists at `join(dir, key)` and no refresh is
forced; otherwise download once (setting `_downloaded`), seek the tmp
file to 0 and return it. -/
def get_file (w : World) (self : DownloadedS3File) (force_refresh : Bool) :
    (Except PyError Nat) × World × DownloadedS3File :=
  if self.s3.use_cache && os_path_isfile w (os_path_join self.s3.dir self.key) && !force_refresh then
    let (res, w1) := openRB w (os_path_join self.s3.dir self.key)
    (res, w1, self)
  else
    let step : (Except PyError Unit) × World × DownloadedS3File :=
      if !self.downloaded then
        match download w self with
        | (.error e, w1, s1) => (.error e, w1, s1)
        | (.ok _, w1, s1) => (.ok (), w1, { s1 with downloaded := true })
      else (.ok (), w, self)
    match step with
    | (.error e, w1, s1) => (.error e, w1, s1)
    | (.ok _, w1, s1) =>
        match s1.tmp with
        | none => (.error (.attributeError "NoneType object has no attribute seek"), w1, s1)
        | some r =>
            match w1.getFile r with
            | none => (.error (.ioError "invalid file reference"), w1, s1)
            | some f =>
                if f.closed then (.error (.valueError "seek of closed file"), w1, s1)
                else (.ok r, w1.setFile r { f with pos := 0 }, s1)

/-- Constructor `__init__` (core.py lines 37-58).  Note line 50: `self.buf_size =
DEFAULT_BUFFER_SIZE` assigns the module constant, ignoring the `buf_size`
parameter.  When not lazy, `_get_file` runs eagerly and `_downloaded` is
set to `True` unconditionally (lines 56-58). -/
def init (s3 : S3Downloader) (path : String) (mode : String) (buf_size : Nat)
    (w : World) : (Except PyError DownloadedS3File) × World :=
  if mode ≠ "rb" then (.error (.notImplementedError "File mode must be rb"), w)
  else
    let (bucket, key) := split_path path
    let self0 : DownloadedS3File :=
      { s3 := s3, mode := mode, path := path, bucket := bucket, key := key
        buf_size := DEFAULT_BUFFER_SIZE
        closed := false, file := .pyNone, tmp := none, downloaded := false }
    if s3.lazy then (.ok self0, w)
    else
      match get_file w self0 false with
      | (.error e, w1, _) => (.error e, w1)
      | (.ok r, w1, s1) => (.ok { s1 with file := .ref r, downloaded := true }, w1)

/-- Method `read` (core.py lines 60-74): resolve the file if `_file` is `None`,
raise `IOError("Cache closed")` on a closed file object, then read inside
`with self._file as f:` - whose exit closes the file object.  A bound
method stored in `_file` (the `readlines` slip) has no `closed`
attribute. -/
def read (w : World) (self : DownloadedS3File) (length : Int) :
    (Except PyError Bytes) × World × DownloadedS3File :=
  let step : (Except PyError Unit) × World × DownloadedS3File :=
    match self.file with
    | .pyNone =>
        match get_file w self false with
        | (.error e, w1, s1) => (.error e, w1, s1)
        | (.ok r, w1, s1) => (.ok (), w1, { s1 with file := .ref r })
    | _ => (.ok (), w, self)
  match step with
  | (.error e, w1, s1) => (.error e, w1, s1)
  | (.ok _, w1, s1) =>
      match s1.file with
      | .pyNone => (.error (.attributeError "NoneType object has no attribute closed"), w1, s1)
      | .boundMethod => (.error (.attributeError "method object has no attribute closed"), w1, s1)
      | .ref r =>
          match w1.getFile r with
          | none => (.error (.ioError "invalid file reference"), w1, s1)
          | some f =>
              if f.closed then (.error (.ioError "Cache closed"), w1, s1)
              else
                let (data, f1) := if length < 0 then freadAll f else freadN f length.toNat
                (.ok data, w1.setFile r { f1 with closed := true }, s1)

/-- Method `readline` (core.py lines 76-85): like `read` but without the
`with` block, so the file object stays open. -/
def readline (w : World) (self : DownloadedS3File) :
    (Except PyError Bytes) × World × DownloadedS3File :=
  let step : (Except PyError Unit) × World × DownloadedS3File :=
    match self.file with
    | .pyNone =>
        match get_file w self false with
        | (.error e, w1, s1) => (.error e, w1, s1)
        | (.ok r, w1, s1) => (.ok (), w1, { s1 with file := .ref r })
    | _ => (.ok (), w, self)
  match step with
  | (.error e, w1, s1) => (.error e, w1, s1)
  | (.ok _, w1, s1) =>
      match s1.file with
      | .pyNone => (.error (.attributeError "NoneType object has no attribute closed"), w1, s1)
      | .boundMethod => (.error (.attributeError "method object has no attribute closed"), w1, s1)
      | .ref r =>
          match w1.getFile r with
          | none => (.error (.ioError "invalid file reference"), w1, s1)
          | some f =>
              if f.closed then (.error (.ioError "Cache closed"), w1, s1)
              else
                let (line, f1) := freadlineFile f
                (.ok line, w1.setFile r f1, s1)

/-- Method `readlines` (core.py lines 87-96).  Line 92 reads
`self._file = self._get_file` - the bound method is assigned, not called;
the subsequent `self._file.closed` then raises `AttributeError` on the
method object. -/
def readlines (w : World) (self : DownloadedS3File) :
    (Except PyError (List Bytes)) × World × DownloadedS3File :=
  let s1 : DownloadedS3File :=
    match self.file with
    | .pyNone => { self with file := .boundMethod }
    | _ => self
  match s1.file with
  | .pyNone => (.error (.attributeError "NoneType object has no attribute closed"), w, s1)
  | .boundMethod => (.error (.attributeError "method object has no attribute closed"), w, s1)
  | .ref r =>
      match w.getFile r with
      | none => (.error (.ioError "invalid file reference"), w, s1)
      | some f =>
          if f.closed then (.error (.ioError "Cache closed"), w, s1)
          else
            let (lines, f1) := freadlinesFile f
            (.ok lines, w.setFile r f1, s1)

/-- Method `_read_only` (core.py lines 149-150): the intended unsupported-operation
error of the read-only handle. -/
def read_only : Except PyError Unit :=
  .error (.notImplementedError "DownloadedS3File is read-only. Use s3fs.S3File for writes.")

/-- Method `write` (core.py lines 98-102): the body is the bare call
`_read_only()`; `_read_only` is a class attribute, not a name in scope in
the method body, so the call raises `NameError` before touching any
state (source runtime message has its quotes elided here). -/
def write (w : World) (self : DownloadedS3File) :
    (Except PyError Unit) × World × DownloadedS3File :=
  (.error (.nameError "name _read_only is not defined"), w, self)

/-- Method `flush` (core.py lines 104-108): same bare `_read_only()` call. -/
def flush (w : World) (self : DownloadedS3File) :
    (Except PyError Unit) × World × DownloadedS3File :=
  (.error (.nameError "name _read_only is not defined"), w, self)

/-- Method `close` (core.py lines 110-116): close `_file` if set, then mark the
handle closed.  Closing an already-closed file object is a no-op. -/
def close (w : World) (self : DownloadedS3File) :
    (Except PyError Unit) × World × DownloadedS3File :=
  match self.file with
  | .pyNone => (.ok (), w, { self with closed := true })
  | .boundMethod => (.error (.attributeError "method object has no attribute close"), w, self)
  | .ref r =>
      match w.getFile r with
      | none => (.error (.ioError "invalid file reference"), w, self)
      | some f =>
          (.ok (), w.setFile r { f with closed := true }, { self with closed := true })

end DownloadedS3File

/-- Method `S3Downloader.open` (core.py lines 25-26): construct a
`DownloadedS3File` with the default mode and buffer size. -/
def S3Downloader.open (d : S3Downloader) (path : String) (w : World) :
    (Except PyError DownloadedS3File) × World :=
  DownloadedS3File.init d path "rb" DEFAULT_BUFFER_SIZE w

/-- One read-family operation for whole-trace reasoning. -/
inductive ReadOp where
  | read (length : Int)
  | readline
  | readlines
  | close
deriving DecidableEq, Repr

/-- Run a sequence of read-family operations on a handle, keeping the
mutated state whether or not each operation raised. -/
def runOps : List ReadOp → World → DownloadedS3File → World × DownloadedS3File
  | [], w, self => (w, self)
  | op :: rest, w, self =>
      let next : World × DownloadedS3File :=
        match op with
        | .read n => ((DownloadedS3File.read w self n).2.1, (DownloadedS3File.read w self n).2.2)
        | .readline => ((DownloadedS3File.readline w self).2.1, (DownloadedS3File.readline w self).2.2)
        | .readlines => ((DownloadedS3File.readlines w self).2.1, (DownloadedS3File.readlines w self).2.2)
        | .close => ((DownloadedS3File.close w self).2.1, (DownloadedS3File.close w self).2.2)
      runOps rest next.1 next.2

/-! ### Helper lemmas -/

theorem DEFAULT_BUFFER_SIZE_pos : 0 < DEFAULT_BUFFER_SIZE := by
  norm_num [DEFAULT_BUFFER_SIZE]

theorem fwriteFile_at_end (f : LocalFile) (data : Bytes) (hp : f.pos = f.content.length) :
    fwriteFile f data =
      { f with content := f.content ++ data, pos := f.content.length + data.length } := by
  have hdrop : f.content.drop (f.pos + data.length) = [] := by
    apply List.drop_eq_nil_of_le
    omega
  simp [fwriteFile, hp, hdrop]

theorem downloadLoop_spec_aux : ∀ (n b : Nat), 0 < b → ∀ (f : LocalFile) (s : Bytes),
    s.length ≤ n → f.pos = f.content.length →
    downloadLoop b f s =
      { f with content := f.content ++ s, pos := f.content.length + s.length } := by
  intro n
  induction n with
  | zero =>
      intro b hb f s hle hp
      have hs : s = [] := List.eq_nil_of_length_eq_zero (Nat.le_zero.mp hle)
      subst hs
      rw [downloadLoop]
      simp [← hp]
  | succ n ih =>
      intro b hb f s hle hp
      by_cases hs : s = []
      · subst hs
        rw [downloadLoop]
        simp [← hp]
      · rw [downloadLoop]
        have htake : s.take b ≠ [] := by
          simp [List.take_eq_nil_iff]
          exact ⟨by omega, hs⟩
        rw [dif_neg htake]
        rw [fwriteFile_at_end f (s.take b) hp]
        have hdlen : (s.drop b).length ≤ n := by
          have hsl : 0 < s.length := List.length_pos.mpr hs
          simp only [List.length_drop]
          omega
        rw [ih b hb _ _ hdlen (by simp)]
        simp [List.append_assoc, List.take_append_drop]
        omega

/-- The chunked-transfer loop writes exactly the full stream: the local
store ends holding its previous content extended by every streamed byte. -/
theorem downloadLoop_spec (b : Nat) (hb : 0 < b) (f : LocalFile) (s : Bytes)
    (hp : f.pos = f.content.length) :
    downloadLoop b f s =
      { f with content := f.content ++ s, pos := f.content.length + s.length } :=
  downloadLoop_spec_aux s.length b hb f s le_rfl hp

/-- The transfer loop over a fresh anonymous store, at the default buffer
size, ends with exactly the streamed content. -/
theorem downloadLoop_default_eval (s : Bytes) :
    downloadLoop DEFAULT_BUFFER_SIZE
      { name := none, content := [], pos := 0, writable := true, closed := false } s =
      { name := none, content := s, pos := s.length, writable := true, closed := false } := by
  rw [downloadLoop_spec DEFAULT_BUFFER_SIZE DEFAULT_BUFFER_SIZE_pos _ _ rfl]
  simp

/-- Evaluation `os.path.join("", key) = key`: with no cache directory the resolved
path is the bare key. -/
theorem os_path_join_empty (k : String) : os_path_join "" k = k := by
  unfold os_path_join
  by_cases hk : startsWithSep k = true
  · simp [hk]
  · simp [hk]
/-! ### Claims -/

/-- C1: with the default configuration (no cache directory, not lazy, no
cache reuse), opening a handle on a remote object and calling `read()`
with no length argument returns exactly the full remote content,
byte-for-byte. -/
theorem C1_default_open_read_full_content
    (fsL : List (String × Bytes)) (remote : List (String × String × Bytes))
    (path bucket key : String) (content : Bytes)
    (hsplit : split_path path = (bucket, key))
    (hrem : lookupRemote remote bucket key = some content) :
    ∃ (h : DownloadedS3File) (w1 : World),
      S3Downloader.open { dir := "", lazy := false, use_cache := false } path
        (World.init fsL remote) = (.ok h, w1) ∧
      (DownloadedS3File.read w1 h (-1)).1 = .ok content := by
  have hopen : S3Downloader.open { dir := "", lazy := false, use_cache := false } path
      (World.init fsL remote) =
      (.ok
        { s3 := { dir := "", lazy := false, use_cache := false }, mode := "rb", path := path,
          bucket := bucket, key := key, buf_size := DEFAULT_BUFFER_SIZE, closed := false,
          file := .ref 0, tmp := some 0, downloaded := true },
        { fs := fsL, remote := remote,
          heap := [{ name := none, content := content, pos := 0, writable := true, closed := false }],
          fetches := 1 }) := by
    simp [S3Downloader.open, DownloadedS3File.init, DownloadedS3File.get_file,
      DownloadedS3File.download, DownloadedS3File.get_tmp, temporaryFile, World.alloc,
      World.getFile, World.setFile, World.init, hsplit, hrem, downloadLoop_default_eval]
  refine ⟨_, _, hopen, ?_⟩
  simp [DownloadedS3File.read, World.getFile, World.setFile, freadAll]

/-- Witness for C1 at a concrete input: the 13-byte object
`hello world!\n` is returned whole. -/
theorem C1_default_open_read_full_content_witness :
    ∃ (h : DownloadedS3File) (w1 : World),
      S3Downloader.open { dir := "", lazy := false, use_cache := false } "b/k"
        (World.init [] [("b", "k", [104, 101, 108, 108, 111, 32, 119, 111, 114, 108, 100, 33, 10])]) =
        (.ok h, w1) ∧
      (DownloadedS3File.read w1 h (-1)).1 =
        .ok [104, 101, 108, 108, 111, 32, 119, 111, 114, 108, 100, 33, 10] :=
  C1_default_open_read_full_content []
    [("b", "k", [104, 101, 108, 108, 111, 32, 119, 111, 114, 108, 100, 33, 10])]
    "b/k" "b" "k" [104, 101, 108, 108, 111, 32, 119, 111, 114, 108, 100, 33, 10]
    (by decide) (by decide)

/-- C3: the constructor ignores its explicit buffer-size argument - line 50
of core.py assigns `DEFAULT_BUFFER_SIZE` to `self.buf_size` regardless, so
a handle built with `buf_size = 1024` still carries the 256 MiB default
chunk size (the default-value half of the claim does hold). -/
theorem C3_buf_size_argument_ignored :
    (∀ (b : Nat) (w : World) (path : String),
      ((DownloadedS3File.init { dir := "", lazy := true, use_cache := false } path "rb" b w).1).map
        DownloadedS3File.buf_size = .ok DEFAULT_BUFFER_SIZE) ∧
    DEFAULT_BUFFER_SIZE = 2 ^ 20 * 256 ∧
    ((DownloadedS3File.init { dir := "", lazy := true, use_cache := false } "b/k" "rb" 1024
        (World.init [] [])).1).map DownloadedS3File.buf_size ≠ .ok 1024 := by
  refine ⟨?_, rfl, ?_⟩
  · intro b w path
    simp [DownloadedS3File.init, Except.map]
  · simp [DownloadedS3File.init, Except.map, DEFAULT_BUFFER_SIZE]

/-- C5: `write` and `flush` raise and leave the world and the handle
untouched, but the raised error is `NameError` (the bare `_read_only()`
call at core.py lines 102 and 108 looks the class attribute up as a plain
name), not the intended unsupported-operation `NotImplementedError` held
in `read_only`. -/
theorem C5_write_flush_raise_name_error (w : World) (self : DownloadedS3File) :
    DownloadedS3File.write w self =
      (.error (.nameError "name _read_only is not defined"), w, self) ∧
    DownloadedS3File.flush w self =
      (.error (.nameError "name _read_only is not defined"), w, self) ∧
    ∀ msg, (PyError.nameError "name _read_only is not defined") ≠ .notImplementedError msg :=
  ⟨rfl, rfl, fun _ h => PyError.noConfusion h⟩

/-- C2: evaluation at the failing input.  After one successful `read()` on
a never-closed handle (its `closed` flag still `false`), the `with`-block
of `read` (core.py line 70) has closed the local file object, so a second
`read()`, a `readline()` or a `readlines()` each raise
`IOError("Cache closed")` even though `close()` was never called. -/
theorem C2_second_read_raises_cache_closed_without_close :
    ∃ (h : DownloadedS3File) (w1 : World),
      S3Downloader.open { dir := "", lazy := false, use_cache := false } "b/k"
        (World.init [] [("b", "k", [104, 105, 10])]) = (.ok h, w1) ∧
      (DownloadedS3File.read w1 h (-1)).1 = .ok [104, 105, 10] ∧
      ((DownloadedS3File.read w1 h (-1)).2.2).closed = false ∧
      (DownloadedS3File.read (DownloadedS3File.read w1 h (-1)).2.1
        (DownloadedS3File.read w1 h (-1)).2.2 (-1)).1 = .error (.ioError "Cache closed") ∧
      (DownloadedS3File.readline (DownloadedS3File.read w1 h (-1)).2.1
        (DownloadedS3File.read w1 h (-1)).2.2).1 = .error (.ioError "Cache closed") ∧
      (DownloadedS3File.readlines (DownloadedS3File.read w1 h (-1)).2.1
        (DownloadedS3File.read w1 h (-1)).2.2).1 = .error (.ioError "Cache closed") := by
  have hopen : S3Downloader.open { dir := "", lazy := false, use_cache := false } "b/k"
      (World.init [] [("b", "k", [104, 105, 10])]) =
      (.ok
        { s3 := { dir := "", lazy := false, use_cache := false }, mode := "rb", path := "b/k",
          bucket := "b", key := "k", buf_size := DEFAULT_BUFFER_SIZE, closed := false,
          file := .ref 0, tmp := some 0, downloaded := true },
        { fs := [], remote := [("b", "k", [104, 105, 10])],
          heap := [{ name := none, content := [104, 105, 10], pos := 0, writable := true,
                     closed := false }],
          fetches := 1 }) := by
    simp [S3Downloader.open, DownloadedS3File.init, DownloadedS3File.get_file,
      DownloadedS3File.download, DownloadedS3File.get_tmp, temporaryFile, World.alloc,
      World.getFile, World.setFile, World.init, lookupRemote, downloadLoop_default_eval,
      split_path, splitChars]
  exact ⟨_, _, hopen, rfl, rfl, rfl, rfl, rfl⟩

/-- C4: evaluation at the failing input.  On a lazy handle that was never
read, `close()` succeeds and marks `closed`, yet a subsequent `read()`
does NOT raise the closed-handle error: `read` only consults
`self._file.closed` and `_file` is still `None`, so it downloads the
object and returns its full content.  (The second half of the claim,
idempotent `close()`, does hold.) -/
theorem C4_lazy_read_after_close_returns_content :
    ∃ (h : DownloadedS3File) (w1 : World),
      S3Downloader.open { dir := "", lazy := true, use_cache := false } "b/k"
        (World.init [] [("b", "k", [104, 105, 10])]) = (.ok h, w1) ∧
      (DownloadedS3File.close w1 h).1 = .ok () ∧
      ((DownloadedS3File.close w1 h).2.2).closed = true ∧
      (DownloadedS3File.read (DownloadedS3File.close w1 h).2.1
        (DownloadedS3File.close w1 h).2.2 (-1)).1 = .ok [104, 105, 10] ∧
      (DownloadedS3File.close (DownloadedS3File.close w1 h).2.1
        (DownloadedS3File.close w1 h).2.2).1 = .ok () := by
  refine ⟨_, _, rfl, rfl, rfl, ?_, rfl⟩
  simp [DownloadedS3File.close, DownloadedS3File.read, DownloadedS3File.get_file,
    DownloadedS3File.download, DownloadedS3File.get_tmp, temporaryFile, World.alloc,
    World.getFile, World.setFile, World.init, lookupRemote, downloadLoop_default_eval,
    freadAll, S3Downloader.open, DownloadedS3File.init, split_path, splitChars]

/-- C6: evaluation at the failing input.  On a lazy handle with no prior
read, `readlines()` assigns the bound method `self._get_file` to
`self._file` without calling it (core.py line 92); the following
`self._file.closed` raises `AttributeError` on the method object, no
download happens (`fetches` stays 0, `downloaded` stays false) and no
lines are returned. -/
theorem C6_lazy_readlines_raises_attribute_error :
    ∃ (h : DownloadedS3File) (w1 : World),
      S3Downloader.open { dir := "", lazy := true, use_cache := false } "b/k"
        (World.init [] [("b", "k", [104, 105, 10])]) = (.ok h, w1) ∧
      (DownloadedS3File.readlines w1 h).1 =
        .error (.attributeError "method object has no attribute closed") ∧
      ((DownloadedS3File.readlines w1 h).2.1).fetches = 0 ∧
      ((DownloadedS3File.readlines w1 h).2.2).file = .boundMethod ∧
      ((DownloadedS3File.readlines w1 h).2.2).downloaded = false :=
  ⟨_, _, rfl, rfl, rfl, rfl, rfl⟩

/-! ### Cache-hit evaluation lemmas -/

/-- Method `_get_file` on a cache hit (`use_cache` set, a file on disk at the
resolved path, no forced refresh): opens that file read-only, touching
neither the file map, the fetch counter, nor the handle. -/
theorem get_file_cacheHit_eq (w : World) (self : DownloadedS3File) (c : Bytes)
    (hc : self.s3.use_cache = true)
    (hl : lookupFS w.fs (os_path_join self.s3.dir self.key) = some c) :
    DownloadedS3File.get_file w self false =
      (.ok w.heap.length,
       { w with heap := w.heap ++ [{ name := some (os_path_join self.s3.dir self.key),
                                     content := c, pos := 0, writable := false,
                                     closed := false }] },
       self) := by
  unfold DownloadedS3File.get_file
  rw [hc]
  simp [os_path_isfile, hl, openRB, World.alloc]

/-- Method `open` on a cache hit: the handle is ready (eagerly resolved unless
lazy), no fetch has happened, and `downloaded` is the negation of `lazy`
(the eager constructor sets it even though nothing was transferred). -/
theorem open_cacheHit (d : S3Downloader) (path bucket key : String) (c : Bytes)
    (fsL : List (String × Bytes)) (remote : List (String × String × Bytes))
    (hc : d.use_cache = true)
    (hsplit : split_path path = (bucket, key))
    (hfs : lookupFS fsL (os_path_join d.dir key) = some c) :
    S3Downloader.open d path (World.init fsL remote) =
      (.ok { s3 := d, mode := "rb", path := path, bucket := bucket, key := key,
             buf_size := DEFAULT_BUFFER_SIZE, closed := false,
             file := if d.lazy then .pyNone else .ref 0,
             tmp := none, downloaded := !d.lazy },
       { fs := fsL, remote := remote,
         heap := if d.lazy then []
                 else [{ name := some (os_path_join d.dir key), content := c, pos := 0,
                         writable := false, closed := false }],
         fetches := 0 }) := by
  obtain ⟨dir, lz, uc⟩ := d
  simp only [S3Downloader.mk.injEq] at hc ⊢
  cases lz with
  | true =>
      simp [S3Downloader.open, DownloadedS3File.init, hsplit, World.init]
  | false =>
      have hg := get_file_cacheHit_eq (World.init fsL remote)
        { s3 := { dir := dir, lazy := false, use_cache := uc }, mode := "rb", path := path,
          bucket := bucket, key := key, buf_size := DEFAULT_BUFFER_SIZE, closed := false,
          file := .pyNone, tmp := none, downloaded := false } c (by simpa using hc)
        (by simpa [World.init] using hfs)
      simp [S3Downloader.open, DownloadedS3File.init, hsplit, World.init] at hg ⊢
      rw [hg]

/-- C7: with a cache directory configured and `reuseCache = true`, if a
file exists on disk at the resolved cache path when the handle is opened,
`read()` returns exactly that local file's bytes and no remote fetch is
performed - whatever the remote store holds (it is unconstrained here). -/
theorem C7_reuse_cache_serves_local_file
    (fsL : List (String × Bytes)) (remote : List (String × String × Bytes))
    (d : S3Downloader) (path bucket key : String) (content : Bytes)
    (hc : d.use_cache = true) (hdir : d.dir ≠ "")
    (hsplit : split_path path = (bucket, key))
    (hfs : lookupFS fsL (os_path_join d.dir key) = some content) :
    ∃ (h : DownloadedS3File) (w1 : World),
      S3Downloader.open d path (World.init fsL remote) = (.ok h, w1) ∧
      (DownloadedS3File.read w1 h (-1)).1 = .ok content ∧
      ((DownloadedS3File.read w1 h (-1)).2.1).fetches = 0 := by
  rw [open_cacheHit d path bucket key content fsL remote hc hsplit hfs]
  refine ⟨_, _, rfl, ?_, ?_⟩ <;>
    cases hd : d.lazy <;>
      simp [hd, DownloadedS3File.read, DownloadedS3File.get_file, os_path_isfile, hc, hfs,
        openRB, World.alloc, World.getFile, World.setFile, freadAll]

/-- Witness for C7: the altered local cache bytes `bla` are served while
the remote object still holds different content, with zero fetches. -/
theorem C7_reuse_cache_serves_local_file_witness :
    ∃ (h : DownloadedS3File) (w1 : World),
      S3Downloader.open { dir := "tmp", lazy := false, use_cache := true } "b/k"
        (World.init [("tmp/k", [98, 108, 97])] [("b", "k", [104, 105])]) = (.ok h, w1) ∧
      (DownloadedS3File.read w1 h (-1)).1 = .ok [98, 108, 97] ∧
      ((DownloadedS3File.read w1 h (-1)).2.1).fetches = 0 :=
  C7_reuse_cache_serves_local_file [("tmp/k", [98, 108, 97])] [("b", "k", [104, 105])]
    { dir := "tmp", lazy := false, use_cache := true } "b/k" "b" "k" [98, 108, 97]
    rfl (by decide) (by decide) (by decide)

/-- C8 counterexample: on an eager cache-hit open the constructor sets
`_downloaded = True` (core.py line 58) even though no transfer occurred,
so the claim that the flag stays false "under both the lazy and the eager
configuration" is false at this input. -/
theorem C8_counterexample_eager_cache_hit_downloaded_true :
    ((S3Downloader.open { dir := "tmp", lazy := false, use_cache := true } "b/k"
        (World.init [("tmp/k", [98])] [])).1).map DownloadedS3File.downloaded = .ok true := rfl

/-- C8 amended: on a cache hit the handle becomes readable with no
transfer, and the `downloaded` flag ends up as the negation of `lazy`:
still false after a lazy cache-hit read, but already true at construction
under the eager configuration. -/
theorem C8_amended_cache_hit_downloaded_flag
    (fsL : List (String × Bytes)) (remote : List (String × String × Bytes))
    (d : S3Downloader) (path bucket key : String) (content : Bytes)
    (hc : d.use_cache = true)
    (hsplit : split_path path = (bucket, key))
    (hfs : lookupFS fsL (os_path_join d.dir key) = some content) :
    ∃ (h : DownloadedS3File) (w1 : World),
      S3Downloader.open d path (World.init fsL remote) = (.ok h, w1) ∧
      (DownloadedS3File.read w1 h (-1)).1 = .ok content ∧
      h.downloaded = !d.lazy ∧
      (d.lazy = true → ((DownloadedS3File.read w1 h (-1)).2.2).downloaded = false) := by
  rw [open_cacheHit d path bucket key content fsL remote hc hsplit hfs]
  refine ⟨_, _, rfl, ?_, rfl, ?_⟩
  · cases hd : d.lazy <;>
      simp [hd, DownloadedS3File.read, DownloadedS3File.get_file, os_path_isfile, hc, hfs,
        openRB, World.alloc, World.getFile, World.setFile, freadAll]
  · intro hd
    simp [hd, DownloadedS3File.read, DownloadedS3File.get_file, os_path_isfile, hc, hfs,
      openRB, World.alloc, World.getFile, World.setFile, freadAll]

/-- Witness for C8 amended, on the lazy configuration. -/
theorem C8_amended_cache_hit_downloaded_flag_witness :
    ∃ (h : DownloadedS3File) (w1 : World),
      S3Downloader.open { dir := "tmp", lazy := true, use_cache := true } "b/k"
        (World.init [("tmp/k", [98])] []) = (.ok h, w1) ∧
      (DownloadedS3File.read w1 h (-1)).1 = .ok [98] ∧
      h.downloaded = !true ∧
      (true = true → ((DownloadedS3File.read w1 h (-1)).2.2).downloaded = false) :=
  C8_amended_cache_hit_downloaded_flag [("tmp/k", [98])] []
    { dir := "tmp", lazy := true, use_cache := true } "b/k" "b" "k" [98]
    rfl (by decide) (by decide)

/-- C9: with an empty cache directory but `reuseCache = true`, the
existence check resolves `os.path.join("", key) = key`, a path relative to
the working directory; when a file exists there, `read()` serves its bytes
with no remote fetch and no ephemeral temporary file (the only file object
ever created is the named read-only one over `key`), leaving the file map
unchanged. -/
theorem C9_empty_dir_reuse_cache_serves_relative_path
    (fsL : List (String × Bytes)) (remote : List (String × String × Bytes))
    (path bucket key : String) (content : Bytes) (lz : Bool)
    (hsplit : split_path path = (bucket, key))
    (hfs : lookupFS fsL key = some content) :
    ∃ (h : DownloadedS3File) (w1 : World),
      S3Downloader.open { dir := "", lazy := lz, use_cache := true } path
        (World.init fsL remote) = (.ok h, w1) ∧
      (DownloadedS3File.read w1 h (-1)).1 = .ok content ∧
      ((DownloadedS3File.read w1 h (-1)).2.1).fetches = 0 ∧
      ((DownloadedS3File.read w1 h (-1)).2.1).heap =
        [{ name := some key, content := content, pos := content.length, writable := false,
           closed := true }] ∧
      ((DownloadedS3File.read w1 h (-1)).2.1).fs = fsL := by
  have hfs2 : lookupFS fsL (os_path_join "" key) = some content := by
    rw [os_path_join_empty]
    exact hfs
  rw [open_cacheHit { dir := "", lazy := lz, use_cache := true } path bucket key content
    fsL remote rfl hsplit hfs2]
  refine ⟨_, _, rfl, ?_, ?_, ?_, ?_⟩ <;>
    cases hd : lz <;>
      simp [hd, DownloadedS3File.read, DownloadedS3File.get_file, os_path_isfile, hfs, hfs2,
        openRB, World.alloc, World.getFile, World.setFile, freadAll, os_path_join_empty]

/-- Witness for C9. -/
theorem C9_empty_dir_reuse_cache_serves_relative_path_witness :
    ∃ (h : DownloadedS3File) (w1 : World),
      S3Downloader.open { dir := "", lazy := false, use_cache := true } "b/k"
        (World.init [("k", [1, 2, 3])] [("b", "k", [9])]) = (.ok h, w1) ∧
      (DownloadedS3File.read w1 h (-1)).1 = .ok [1, 2, 3] ∧
      ((DownloadedS3File.read w1 h (-1)).2.1).fetches = 0 ∧
      ((DownloadedS3File.read w1 h (-1)).2.1).heap =
        [{ name := some "k", content := [1, 2, 3], pos := [1, 2, 3].length, writable := false,
           closed := true }] ∧
      ((DownloadedS3File.read w1 h (-1)).2.1).fs = [("k", [1, 2, 3])] :=
  C9_empty_dir_reuse_cache_serves_relative_path [("k", [1, 2, 3])] [("b", "k", [9])]
    "b/k" "b" "k" [1, 2, 3] false (by decide) (by decide)

/-! ### Frame lemmas for cache-hit handles (C10) -/

/-- Method `read` under a cache-hit configuration never touches the on-disk file
map and preserves the handle identity fields. -/
theorem read_preserves_cacheHit (w : World) (self : DownloadedS3File) (n : Int) (c : Bytes)
    (hc : self.s3.use_cache = true)
    (hl : lookupFS w.fs (os_path_join self.s3.dir self.key) = some c) :
    (DownloadedS3File.read w self n).2.1.fs = w.fs ∧
    (DownloadedS3File.read w self n).2.2.s3 = self.s3 ∧
    (DownloadedS3File.read w self n).2.2.key = self.key := by
  cases hfile : self.file with
  | pyNone =>
      unfold DownloadedS3File.read
      rw [hfile, get_file_cacheHit_eq w self c hc hl]
      by_cases hn : n < 0 <;>
        simp [hn, World.getFile, World.setFile, List.getElem?_concat_length, freadAll, freadN]
  | ref r =>
      unfold DownloadedS3File.read
      cases hget : w.getFile r with
      | none => simp [hfile, hget]
      | some f =>
          cases hcl : f.closed
          · by_cases hn : n < 0 <;>
              simp [hfile, hget, hcl, hn, World.setFile, freadAll, freadN]
          · simp [hfile, hget, hcl]
  | boundMethod =>
      unfold DownloadedS3File.read
      simp [hfile]

/-- Method `readline` under a cache-hit configuration: same frame property. -/
theorem readline_preserves_cacheHit (w : World) (self : DownloadedS3File) (c : Bytes)
    (hc : self.s3.use_cache = true)
    (hl : lookupFS w.fs (os_path_join self.s3.dir self.key) = some c) :
    (DownloadedS3File.readline w self).2.1.fs = w.fs ∧
    (DownloadedS3File.readline w self).2.2.s3 = self.s3 ∧
    (DownloadedS3File.readline w self).2.2.key = self.key := by
  cases hfile : self.file with
  | pyNone =>
      unfold DownloadedS3File.readline
      rw [hfile, get_file_cacheHit_eq w self c hc hl]
      simp [World.getFile, World.setFile, List.getElem?_concat_length, freadlineFile]
  | ref r =>
      unfold DownloadedS3File.readline
      cases hget : w.getFile r with
      | none => simp [hfile, hget]
      | some f =>
          cases hcl : f.closed <;> simp [hfile, hget, hcl, World.setFile, freadlineFile]
  | boundMethod =>
      unfold DownloadedS3File.readline
      simp [hfile]

/-- Method `readlines` never touches the on-disk file map (on the lazy path it
does not even resolve the file, by the line-92 slip). -/
theorem readlines_preserves (w : World) (self : DownloadedS3File) :
    (DownloadedS3File.readlines w self).2.1.fs = w.fs ∧
    (DownloadedS3File.readlines w self).2.2.s3 = self.s3 ∧
    (DownloadedS3File.readlines w self).2.2.key = self.key := by
  cases hfile : self.file with
  | pyNone => unfold DownloadedS3File.readlines; simp [hfile]
  | ref r =>
      unfold DownloadedS3File.readlines
      cases hget : w.getFile r with
      | none => simp [hfile, hget]
      | some f =>
          cases hcl : f.closed <;> simp [hfile, hget, hcl, World.setFile, freadlinesFile]
  | boundMethod => unfold DownloadedS3File.readlines; simp [hfile]

/-- Method `close` never touches the on-disk file map. -/
theorem close_preserves (w : World) (self : DownloadedS3File) :
    (DownloadedS3File.close w self).2.1.fs = w.fs ∧
    (DownloadedS3File.close w self).2.2.s3 = self.s3 ∧
    (DownloadedS3File.close w self).2.2.key = self.key := by
  cases hfile : self.file with
  | pyNone => unfold DownloadedS3File.close; simp [hfile]
  | ref r =>
      unfold DownloadedS3File.close
      cases hget : w.getFile r with
      | none => simp [hfile, hget]
      | some f => simp [hfile, hget, World.setFile]
  | boundMethod => unfold DownloadedS3File.close; simp [hfile]

/-- Any sequence of read-family operations on a cache-hit-configured
handle leaves the on-disk file map exactly as it was. -/
theorem runOps_preserves_fs (ops : List ReadOp) (w : World) (self : DownloadedS3File)
    (c : Bytes) (hc : self.s3.use_cache = true)
    (hl : lookupFS w.fs (os_path_join self.s3.dir self.key) = some c) :
    (runOps ops w self).1.fs = w.fs := by
  induction ops generalizing w self with
  | nil => rfl
  | cons op rest ih =>
      cases op with
      | read n =>
          obtain ⟨hfs, hs3, hkey⟩ := read_preserves_cacheHit w self n c hc hl
          have hrec := ih (DownloadedS3File.read w self n).2.1
            (DownloadedS3File.read w self n).2.2
            (by rw [hs3]; exact hc) (by rw [hs3, hkey, hfs]; exact hl)
          simp only [runOps]
          rw [hrec, hfs]
      | readline =>
          obtain ⟨hfs, hs3, hkey⟩ := readline_preserves_cacheHit w self c hc hl
          have hrec := ih (DownloadedS3File.readline w self).2.1
            (DownloadedS3File.readline w self).2.2
            (by rw [hs3]; exact hc) (by rw [hs3, hkey, hfs]; exact hl)
          simp only [runOps]
          rw [hrec, hfs]
      | readlines =>
          obtain ⟨hfs, hs3, hkey⟩ := readlines_preserves w self
          have hrec := ih (DownloadedS3File.readlines w self).2.1
            (DownloadedS3File.readlines w self).2.2
            (by rw [hs3]; exact hc) (by rw [hs3, hkey, hfs]; exact hl)
          simp only [runOps]
          rw [hrec, hfs]
      | close =>
          obtain ⟨hfs, hs3, hkey⟩ := close_preserves w self
          have hrec := ih (DownloadedS3File.close w self).2.1
            (DownloadedS3File.close w self).2.2
            (by rw [hs3]; exact hc) (by rw [hs3, hkey, hfs]; exact hl)
          simp only [runOps]
          rw [hrec, hfs]

/-- C10: on a cache-hit open the backing file is opened read-only
(`writable := false`), and any sequence of `read`/`readline`/`readlines`/
`close` operations on the handle leaves the on-disk file map - in
particular the bytes at the cache path - exactly unchanged. -/
theorem C10_cache_hit_ops_leave_disk_unchanged
    (fsL : List (String × Bytes)) (remote : List (String × String × Bytes))
    (d : S3Downloader) (path bucket key : String) (content : Bytes) (ops : List ReadOp)
    (hc : d.use_cache = true)
    (hsplit : split_path path = (bucket, key))
    (hfs : lookupFS fsL (os_path_join d.dir key) = some content) :
    ∃ (h : DownloadedS3File) (w1 : World),
      S3Downloader.open d path (World.init fsL remote) = (.ok h, w1) ∧
      (d.lazy = false →
        w1.heap = [{ name := some (os_path_join d.dir key), content := content, pos := 0,
                     writable := false, closed := false }]) ∧
      (runOps ops w1 h).1.fs = fsL ∧
      lookupFS ((runOps ops w1 h).1.fs) (os_path_join d.dir key) = some content := by
  rw [open_cacheHit d path bucket key content fsL remote hc hsplit hfs]
  have hrun : (runOps ops
      { fs := fsL, remote := remote,
        heap := if d.lazy then []
                else [{ name := some (os_path_join d.dir key), content := content, pos := 0,
                        writable := false, closed := false }],
        fetches := 0 }
      { s3 := d, mode := "rb", path := path, bucket := bucket, key := key,
        buf_size := DEFAULT_BUFFER_SIZE, closed := false,
        file := if d.lazy then .pyNone else .ref 0, tmp := none,
        downloaded := !d.lazy }).1.fs = fsL :=
    runOps_preserves_fs ops _ _ content hc hfs
  refine ⟨_, _, rfl, ?_, hrun, ?_⟩
  · intro hd
    simp [hd]
  · rw [hrun]
    exact hfs

/-- Witness for C10: a concrete operation sequence (a whole-file read, a
readline, a readlines and a close) over a concrete cache hit. -/
theorem C10_cache_hit_ops_leave_disk_unchanged_witness :
    ∃ (h : DownloadedS3File) (w1 : World),
      S3Downloader.open { dir := "tmp", lazy := false, use_cache := true } "b/k"
        (World.init [("tmp/k", [5, 6])] [("b", "k", [7])]) = (.ok h, w1) ∧
      (false = false →
        w1.heap = [{ name := some (os_path_join "tmp" "k"), content := [5, 6], pos := 0,
                     writable := false, closed := false }]) ∧
      (runOps [.read (-1), .readline, .readlines, .close] w1 h).1.fs = [("tmp/k", [5, 6])] ∧
      lookupFS ((runOps [.read (-1), .readline, .readlines, .close] w1 h).1.fs)
        (os_path_join "tmp" "k") = some [5, 6] :=
  C10_cache_hit_ops_leave_disk_unchanged [("tmp/k", [5, 6])] [("b", "k", [7])]
    { dir := "tmp", lazy := false, use_cache := true } "b/k" "b" "k" [5, 6]
    [.read (-1), .readline, .readlines, .close] rfl (by decide) (by decide)
